import Mathlib

/-!
Verification of the baselaunch routing and view layer of the cloudlaunch
repository.  The embedding translates the two source files,
baselaunch/util.py (hybrid router, getattrd) and baselaunch/views.py
(viewset classes), into Lean definitions, and settles the specification
claims about them as theorems.
-/

set_option maxRecDepth 4000

/-! ## Part 1: dotted attribute lookup (util.getattrd)

A Python object is modelled, for the purpose of attribute access, as a
finite attribute table whose values are themselves objects.  getattr
raises AttributeError when the attribute is absent; this is modelled by
Except String, the error payload being the missing attribute name. -/

inductive PyObj where
  | obj : List (String × PyObj) → PyObj

/-- Python getattr on the modelled object: look the name up in the
attribute table, raising AttributeError (modelled as Except.error) when
it is absent. -/
def pyGetattr : PyObj → String → Except String PyObj
  | PyObj.obj fields, name =>
      match fields.lookup name with
      | some v => Except.ok v
      | none => Except.error name

/-- Splitting a dotted attribute path on the dot character, as
Python str.split with separator dot does (structural recursion over the
character list of the string). -/
def splitDotsAux : List Char → List Char → List String
  | [], acc => [acc.reverse.asString]
  | c :: cs, acc =>
      if c = '.' then acc.reverse.asString :: splitDotsAux cs []
      else splitDotsAux cs (c :: acc)

def splitDots (s : String) : List String :=
  splitDotsAux s.data []

/-- operator.attrgetter with a dotted name: resolve each component in
turn with getattr, propagating AttributeError. -/
def attrgetter (name : String) (obj : PyObj) : Except String PyObj :=
  (splitDots name).foldlM pyGetattr obj

/-- util.getattrd: same as getattr but allows dot notation lookup;
the try/except around attrgetter converts AttributeError to None. -/
def getattrd (obj : PyObj) (name : String) : Option PyObj :=
  match attrgetter name obj with
  | Except.ok v => some v
  | Except.error _ => none

/-- The chain of attribute accesses described by the specification:
follow each component in turn, yielding none as soon as a step fails. -/
def followChain : PyObj → List String → Option PyObj
  | o, [] => some o
  | o, n :: rest =>
      match pyGetattr o n with
      | Except.ok v => followChain v rest
      | Except.error _ => none

lemma foldlM_pyGetattr_eq_followChain :
    ∀ (parts : List String) (o : PyObj),
      (match parts.foldlM pyGetattr o with
       | Except.ok v => some v
       | Except.error _ => none) = followChain o parts := by
  intro parts
  induction parts with
  | nil => intro o; rfl
  | cons n rest ih =>
      intro o
      simp only [List.foldlM, followChain]
      cases pyGetattr o n with
      | ok v => exact ih v
      | error e => rfl

/-- C10: for every object and dotted attribute path, getattrd returns
the value obtained by following the chain of attribute accesses when
every step resolves, and returns none whenever some step of the chain
raises AttributeError; the AttributeError is never propagated to the
caller (every attrgetter outcome is mapped to an Option result). -/
theorem getattrd_catches_attribute_error (o : PyObj) (name : String) :
    getattrd o name = followChain o (splitDots name) ∧
    (∀ v, attrgetter name o = Except.ok v → getattrd o name = some v) ∧
    (∀ e, attrgetter name o = Except.error e → getattrd o name = none) := by
  refine ⟨?_, ?_, ?_⟩
  · unfold getattrd attrgetter
    exact foldlM_pyGetattr_eq_followChain (splitDots name) o
  · intro v h
    unfold getattrd
    rw [h]
  · intro e h
    unfold getattrd
    rw [h]

/-- Witness for C10 at a concrete object and a concrete dotted path. -/
theorem getattrd_catches_attribute_error_witness :
    getattrd (PyObj.obj [("a", PyObj.obj [("b", PyObj.obj [])])]) "a.b"
      = followChain (PyObj.obj [("a", PyObj.obj [("b", PyObj.obj [])])])
          (splitDots "a.b") :=
  (getattrd_catches_attribute_error
    (PyObj.obj [("a", PyObj.obj [("b", PyObj.obj [])])]) "a.b").1

/-! ## Part 2: the hybrid router (util.HybridRoutingMixin over
rest_framework.routers.SimpleRouter)

A view class, as the router consumes it, is described by whether it is a
subclass of viewsets.ViewSetMixin, by which viewset action methods it
defines (list, create, retrieve, update, partial update, destroy;
consulted by the hasattr checks of get_method_map), and, for a plain
APIView, by which HTTP verb methods it defines (consulted by as_view).
None of the viewsets of the repository declares decorated dynamic
routes, so get_routes of the underlying router reduces to its two static
route templates. -/

inductive HttpMethod where
  | get | post | put | patch | delete
deriving DecidableEq

structure ViewClass where
  isViewSetMixin : Bool
  actions : List String
  httpMethods : List HttpMethod
deriving DecidableEq

/-- A registry entry of the router: the path (called prefix in the
source, a reserved word here, hence pfx), the registered view class and
the base name. -/
structure RegistryEntry where
  pfx : String
  viewset : ViewClass
  basename : String
deriving DecidableEq

/-- The bound view a generated URL dispatches to: for a viewset entry,
viewset.as_view with the filtered action mapping; for a plain view,
view.as_view, which answers exactly the HTTP verbs the view defines. -/
inductive BoundView where
  | viewsetActions : List (HttpMethod × String) → BoundView
  | plainView : List HttpMethod → BoundView
deriving DecidableEq

/-- Which HTTP methods the bound view answers. -/
def respondsTo : BoundView → HttpMethod → Bool
  | BoundView.viewsetActions mapping, m => mapping.any (fun p => p.1 == m)
  | BoundView.plainView ms, m => ms.contains m

structure URLPattern where
  regex : String
  view : BoundView
  name : String
deriving DecidableEq

inductive UrlKind where
  | list | detail
deriving DecidableEq

/-- A route template of the underlying router: the shape of the URL, the
HTTP-method-to-action mapping and the name suffix appended to the base
name. -/
structure RouteTemplate where
  kind : UrlKind
  mapping : List (HttpMethod × String)
  nameSuffix : String
deriving DecidableEq

def drfListRoute : RouteTemplate :=
  ⟨UrlKind.list,
   [(HttpMethod.get, "list"), (HttpMethod.post, "create")],
   "-list"⟩

def drfDetailRoute : RouteTemplate :=
  ⟨UrlKind.detail,
   [(HttpMethod.get, "retrieve"), (HttpMethod.put, "update"),
    (HttpMethod.patch, "partial_update"), (HttpMethod.delete, "destroy")],
   "-detail"⟩

/-- rest_framework SimpleRouter.get_routes: with no dynamically
decorated routes on any registered class of this repository, the two
static templates. -/
def SimpleRouter.get_routes (_viewset : ViewClass) : List RouteTemplate :=
  [drfListRoute, drfDetailRoute]

/-- The default lookup regex of the underlying router. -/
def drfLookupRegex : String := "(?P<pk>[^/.]+)"

/-- Substituting the registry entry data into a route template URL:
the list shape and the detail shape of the underlying router. -/
def formatRouteUrl (k : UrlKind) (pfx trailing_slash : String) : String :=
  match k with
  | UrlKind.list => "^" ++ pfx ++ trailing_slash ++ "$"
  | UrlKind.detail =>
      "^" ++ pfx ++ "/" ++ drfLookupRegex ++ trailing_slash ++ "$"

/-- rest_framework get_method_map: keep the mapping pairs whose action
the view class defines (the hasattr check). -/
def get_method_map (viewset : ViewClass)
    (mapping : List (HttpMethod × String)) : List (HttpMethod × String) :=
  mapping.filter (fun p => viewset.actions.contains p.2)

/-- rest_framework SimpleRouter.get_urls: for each registry entry, for
each route of self.get_routes (dynamically dispatched, hence passed as
an argument), skip the route when the filtered mapping is empty,
otherwise emit the formatted URL bound to viewset.as_view with that
mapping, named basename plus the template suffix. -/
def SimpleRouter.get_urls (get_routes : ViewClass → List RouteTemplate)
    (trailing_slash : String) (registry : List RegistryEntry) :
    List URLPattern :=
  registry.flatMap fun e =>
    (get_routes e.viewset).filterMap fun rt =>
      let mapping := get_method_map e.viewset rt.mapping
      if mapping.isEmpty then none
      else some ⟨formatRouteUrl rt.kind e.pfx trailing_slash,
                 BoundView.viewsetActions mapping,
                 e.basename ++ rt.nameSuffix⟩

/-- HybridRoutingMixin.get_routes: a ViewSetMixin subclass is delegated
to the superclass unchanged, any other view class yields no routes. -/
def HybridRoutingMixin.get_routes (viewset : ViewClass) :
    List RouteTemplate :=
  if viewset.isViewSetMixin then SimpleRouter.get_routes viewset else []

/-- The single URL the hybrid loop appends for a plain view entry:
regex prefix plus trailing slash plus the end anchor, bound to
viewset.as_view(), named basename-list. -/
def plainUrl (trailing_slash : String) (e : RegistryEntry) : URLPattern :=
  ⟨e.pfx ++ trailing_slash ++ "$",
   BoundView.plainView e.viewset.httpMethods,
   e.basename ++ "-list"⟩

/-- HybridRoutingMixin.get_urls: start from the superclass URLs, then
loop over the registry, skipping viewsets and appending the single plain
URL for every other entry. -/
def HybridRoutingMixin.get_urls (trailing_slash : String)
    (registry : List RegistryEntry) : List URLPattern :=
  registry.foldl
    (fun ret e =>
      if e.viewset.isViewSetMixin then ret
      else ret ++ [plainUrl trailing_slash e])
    (SimpleRouter.get_urls HybridRoutingMixin.get_routes
      trailing_slash registry)

/-- rest_framework SimpleRouter.register of the vintage this repository
uses: append the triple to the registry, with no duplicate check. -/
def SimpleRouter.register (registry : List RegistryEntry)
    (pfx : String) (viewset : ViewClass) (basename : String) :
    List RegistryEntry :=
  registry ++ [⟨pfx, viewset, basename⟩]

/-- The two plain view classes of views.py: each defines only the HTTP
verb method get and no viewset action methods. -/
def InfrastructureView : ViewClass := ⟨false, [], [HttpMethod.get]⟩

def AuthView : ViewClass := ⟨false, [], [HttpMethod.get]⟩

/-- Viewset classes of views.py as the router sees them.  A ModelViewSet
subclass defines all six standard actions. -/
def ApplicationViewSet : ViewClass :=
  ⟨true,
   ["list", "create", "retrieve", "update", "partial_update", "destroy"],
   []⟩

def CloudViewSet : ViewClass :=
  ⟨true,
   ["list", "create", "retrieve", "update", "partial_update", "destroy"],
   []⟩

/-- The four CustomReadOnlySingleViewSet subclasses define only the list
action (GenericViewSet with ListModelMixin and an own list method). -/
def ComputeViewSet : ViewClass := ⟨true, ["list"], []⟩

def SecurityViewSet : ViewClass := ⟨true, ["list"], []⟩

def BlockStoreViewSet : ViewClass := ⟨true, ["list"], []⟩

def ObjectStoreViewSet : ViewClass := ⟨true, ["list"], []⟩

/-- The hybrid loop over the registry, characterised: the fold appends
exactly the plain URLs of the non-viewset entries, in registry order,
after the initial list. -/
lemma hybrid_fold_characterisation (trailing_slash : String) :
    ∀ (registry : List RegistryEntry) (init : List URLPattern),
      registry.foldl
        (fun ret e =>
          if e.viewset.isViewSetMixin then ret
          else ret ++ [plainUrl trailing_slash e]) init
      = init ++ (registry.filter
          (fun e => !e.viewset.isViewSetMixin)).map
            (plainUrl trailing_slash) := by
  intro registry
  induction registry with
  | nil => intro init; simp
  | cons e rest ih =>
      intro init
      simp only [List.foldl, List.filter]
      cases h : e.viewset.isViewSetMixin with
      | true => simp [h, ih]
      | false =>
          simp only [h, Bool.false_eq_true, if_false, Bool.not_false,
            ih (init ++ [plainUrl trailing_slash e]), List.map_cons,
            List.append_assoc, List.singleton_append]

/-- Structure of the hybrid URL list: superclass URLs first, then the
plain URLs of the non-viewset entries in registry order. -/
lemma hybrid_get_urls_structure (trailing_slash : String)
    (registry : List RegistryEntry) :
    HybridRoutingMixin.get_urls trailing_slash registry
      = SimpleRouter.get_urls HybridRoutingMixin.get_routes
          trailing_slash registry
        ++ (registry.filter
            (fun e => !e.viewset.isViewSetMixin)).map
              (plainUrl trailing_slash) := by
  unfold HybridRoutingMixin.get_urls
  exact hybrid_fold_characterisation trailing_slash registry _

lemma simple_get_urls_congr (trailing_slash : String) :
    ∀ (registry : List RegistryEntry)
      (gr1 gr2 : ViewClass → List RouteTemplate),
      (∀ e ∈ registry, gr1 e.viewset = gr2 e.viewset) →
      SimpleRouter.get_urls gr1 trailing_slash registry
        = SimpleRouter.get_urls gr2 trailing_slash registry := by
  intro registry
  induction registry with
  | nil => intro gr1 gr2 h; rfl
  | cons e rest ih =>
      intro gr1 gr2 h
      unfold SimpleRouter.get_urls
      simp only [List.flatMap_cons]
      rw [h e (by simp)]
      have hrest := ih gr1 gr2 (fun x hx => h x (by simp [hx]))
      unfold SimpleRouter.get_urls at hrest
      rw [hrest]

/-- C1: for every registry entry whose view class is a plain endpoint
(not a ViewSetMixin subclass), the hybrid router generates exactly one
route for it, with regex prefix plus trailing slash plus the end anchor,
bound to the view of that class, and registered under the name basename
plus the suffix -list; for the plain endpoints of this repository
(InfrastructureView and AuthView, each defining only the get method)
that route answers only the GET method. -/
theorem plain_endpoint_single_route (trailing_slash : String)
    (e : RegistryEntry) (hplain : e.viewset.isViewSetMixin = false) :
    HybridRoutingMixin.get_routes e.viewset = [] ∧
    HybridRoutingMixin.get_urls trailing_slash [e]
      = [plainUrl trailing_slash e] ∧
    plainUrl trailing_slash e
      = ⟨e.pfx ++ trailing_slash ++ "$",
         BoundView.plainView e.viewset.httpMethods,
         e.basename ++ "-list"⟩ ∧
    ((e.viewset = InfrastructureView ∨ e.viewset = AuthView) →
      ∀ m, respondsTo (BoundView.plainView e.viewset.httpMethods) m = true
        ↔ m = HttpMethod.get) := by
  refine ⟨?_, ?_, rfl, ?_⟩
  · simp [HybridRoutingMixin.get_routes, hplain]
  · rw [hybrid_get_urls_structure]
    simp [SimpleRouter.get_urls, HybridRoutingMixin.get_routes, hplain]
  · rintro (h | h) m <;> rw [h] <;> cases m <;> decide

/-- Witness for C1 at the infrastructure entry. -/
theorem plain_endpoint_single_route_witness :
    HybridRoutingMixin.get_urls "/"
        [⟨"infrastructure", InfrastructureView, "infrastructure"⟩]
      = [plainUrl "/"
          ⟨"infrastructure", InfrastructureView, "infrastructure"⟩] :=
  (plain_endpoint_single_route "/"
    ⟨"infrastructure", InfrastructureView, "infrastructure"⟩ rfl).2.1

/-- C2: for every registry whose entries are all ViewSetMixin
subclasses, the hybrid router produces exactly the URL list the
underlying non-hybrid router would: get_routes delegates unchanged to
the superclass for such classes, and the plain-endpoint loop of
get_urls skips every such entry. -/
theorem hybrid_router_viewset_drop_in (trailing_slash : String)
    (registry : List RegistryEntry)
    (hall : ∀ e ∈ registry, e.viewset.isViewSetMixin = true) :
    (∀ e ∈ registry,
      HybridRoutingMixin.get_routes e.viewset
        = SimpleRouter.get_routes e.viewset) ∧
    HybridRoutingMixin.get_urls trailing_slash registry
      = SimpleRouter.get_urls SimpleRouter.get_routes
          trailing_slash registry := by
  constructor
  · intro e he
    simp [HybridRoutingMixin.get_routes, hall e he]
  · rw [hybrid_get_urls_structure]
    have hfilter : registry.filter (fun e => !e.viewset.isViewSetMixin)
        = [] := by
      rw [List.filter_eq_nil_iff]
      intro e he
      simp [hall e he]
    rw [hfilter]
    simp only [List.map_nil, List.append_nil]
    exact simple_get_urls_congr trailing_slash registry _ _
      (fun e he => by
        simp [HybridRoutingMixin.get_routes, hall e he])

/-- Witness for C2 at a registry of two ViewSetMixin entries. -/
theorem hybrid_router_viewset_drop_in_witness :
    HybridRoutingMixin.get_urls "/"
        [⟨"applications", ApplicationViewSet, "application"⟩,
         ⟨"clouds", CloudViewSet, "cloud"⟩]
      = SimpleRouter.get_urls SimpleRouter.get_routes "/"
          [⟨"applications", ApplicationViewSet, "application"⟩,
           ⟨"clouds", CloudViewSet, "cloud"⟩] :=
  (hybrid_router_viewset_drop_in "/"
    [⟨"applications", ApplicationViewSet, "application"⟩,
     ⟨"clouds", CloudViewSet, "cloud"⟩]
    (by decide)).2

/-- C8: for every registry, the hybrid URL list is the concatenation of
the URLs of the underlying router (the viewset routes, emitted per
registry entry in registry order) followed by the plain-endpoint URLs
of the non-viewset entries, in registry order. -/
theorem get_urls_concatenation_order (trailing_slash : String)
    (registry : List RegistryEntry) :
    HybridRoutingMixin.get_urls trailing_slash registry
      = SimpleRouter.get_urls HybridRoutingMixin.get_routes
          trailing_slash registry
        ++ (registry.filter
            (fun e => !e.viewset.isViewSetMixin)).map
              (plainUrl trailing_slash) ∧
    SimpleRouter.get_urls HybridRoutingMixin.get_routes
        trailing_slash registry
      = registry.flatMap (fun e =>
          (HybridRoutingMixin.get_routes e.viewset).filterMap fun rt =>
            let mapping := get_method_map e.viewset rt.mapping
            if mapping.isEmpty then none
            else some ⟨formatRouteUrl rt.kind e.pfx trailing_slash,
                       BoundView.viewsetActions mapping,
                       e.basename ++ rt.nameSuffix⟩) :=
  ⟨hybrid_get_urls_structure trailing_slash registry, rfl⟩

/-- Witness for C8 at a mixed registry. -/
theorem get_urls_concatenation_order_witness :
    HybridRoutingMixin.get_urls "/"
        [⟨"clouds", CloudViewSet, "cloud"⟩,
         ⟨"auth", AuthView, "auth"⟩]
      = SimpleRouter.get_urls HybridRoutingMixin.get_routes "/"
          [⟨"clouds", CloudViewSet, "cloud"⟩,
           ⟨"auth", AuthView, "auth"⟩]
        ++ ([⟨"clouds", CloudViewSet, "cloud"⟩,
             ⟨"auth", AuthView, "auth"⟩].filter
            (fun e => !e.viewset.isViewSetMixin)).map (plainUrl "/") :=
  (get_urls_concatenation_order "/"
    [⟨"clouds", CloudViewSet, "cloud"⟩,
     ⟨"auth", AuthView, "auth"⟩]).1

/-- C9 counterexample: registering two entries with the same basename
(and the same path) succeeds and yields a URL list with duplicate route
names; route registration never fails eagerly, since neither register
nor get_urls performs any collision check. -/
theorem route_name_collision_counterexample :
    (SimpleRouter.register
       (SimpleRouter.register [] "foo" InfrastructureView "foo")
       "foo" AuthView "foo").length = 2 ∧
    (HybridRoutingMixin.get_urls "/"
       (SimpleRouter.register
         (SimpleRouter.register [] "foo" InfrastructureView "foo")
         "foo" AuthView "foo")).map URLPattern.name
      = ["foo-list", "foo-list"] ∧
    ¬ ((HybridRoutingMixin.get_urls "/"
        (SimpleRouter.register
          (SimpleRouter.register [] "foo" InfrastructureView "foo")
          "foo" AuthView "foo")).map URLPattern.name).Nodup := by
  refine ⟨rfl, by decide, by decide⟩

/-- C9 amended: the code performs no duplicate detection at all: for
every registry holding two plain entries with the same basename, the
hybrid URL list contains the route name basename-list at least twice,
so the generated route names are not unique; no failure occurs at
registration or URL generation. -/
theorem duplicate_basename_no_eager_failure (trailing_slash : String)
    (registry : List RegistryEntry) (e1 e2 : RegistryEntry)
    (hsub : List.Sublist [e1, e2] registry)
    (h1 : e1.viewset.isViewSetMixin = false)
    (h2 : e2.viewset.isViewSetMixin = false)
    (hb : e1.basename = e2.basename) :
    2 ≤ ((HybridRoutingMixin.get_urls trailing_slash registry).map
          URLPattern.name).count (e1.basename ++ "-list") ∧
    ¬ ((HybridRoutingMixin.get_urls trailing_slash registry).map
        URLPattern.name).Nodup := by
  have hsubf := hsub.filter (fun e => !e.viewset.isViewSetMixin)
  have hf : [e1, e2].filter (fun e => !e.viewset.isViewSetMixin)
      = [e1, e2] := by simp [h1, h2]
  rw [hf] at hsubf
  have hsubm :=
    (hsubf.map (plainUrl trailing_slash)).map URLPattern.name
  have hcountle :=
    List.Sublist.count_le hsubm (e1.basename ++ "-list")
  have hcount2 :
      ([plainUrl trailing_slash e1,
        plainUrl trailing_slash e2].map URLPattern.name).count
          (e1.basename ++ "-list") = 2 := by
    simp [plainUrl, List.count_cons, hb]
  have hmain :
      2 ≤ ((HybridRoutingMixin.get_urls trailing_slash registry).map
            URLPattern.name).count (e1.basename ++ "-list") := by
    rw [hybrid_get_urls_structure, List.map_append, List.count_append]
    simp only [List.map_cons, List.map_nil] at hcountle hcount2
    omega
  refine ⟨hmain, fun hnd => ?_⟩
  have := List.nodup_iff_count_le_one.mp hnd (e1.basename ++ "-list")
  omega

/-- Witness for the C9 amended theorem at a concrete registry. -/
theorem duplicate_basename_no_eager_failure_witness :
    2 ≤ ((HybridRoutingMixin.get_urls "/"
          [⟨"foo", InfrastructureView, "foo"⟩,
           ⟨"bar", AuthView, "foo"⟩]).map
            URLPattern.name).count ("foo" ++ "-list") ∧
    ¬ ((HybridRoutingMixin.get_urls "/"
        [⟨"foo", InfrastructureView, "foo"⟩,
         ⟨"bar", AuthView, "foo"⟩]).map URLPattern.name).Nodup :=
  duplicate_basename_no_eager_failure "/"
    [⟨"foo", InfrastructureView, "foo"⟩, ⟨"bar", AuthView, "foo"⟩]
    ⟨"foo", InfrastructureView, "foo"⟩ ⟨"bar", AuthView, "foo"⟩
    (List.Sublist.refl _) rfl rfl rfl

/-! ## Part 3: the view layer (views.py)

The cloud provider handle is the object view_helpers.get_cloud_provider
hands each view; as used by views.py it is an external collaborator
exposing namespaced accessors with list and get operations, each get
returning the object or Python None (modelled by Option).  The view
methods take the provider and the ambient path keyword arguments as
explicit arguments.  Http404 and PermissionDenied, the exceptions of
the surrounding framework, are modelled by an error type. -/

inductive DrfError where
  | http404
  | permissionDenied
deriving DecidableEq

structure Zone where
  id : String
deriving DecidableEq

structure Region where
  id : String
  zones : List Zone
deriving DecidableEq

structure KeyPair where
  id : String
deriving DecidableEq

structure SecurityGroupRule where
  id : String
deriving DecidableEq

structure SecurityGroup where
  id : String
  rules : List SecurityGroupRule
deriving DecidableEq

structure BucketObject where
  id : String
deriving DecidableEq

/-- A bucket; its list field models the bucket.list() call returning
the objects it contains. -/
structure Bucket where
  id : String
  list : List BucketObject
deriving DecidableEq

structure RegionService where
  list : List Region
  get : String → Option Region

structure KeyPairService where
  list : List KeyPair
  get : String → Option KeyPair

/-- The accessor reached by the attribute chain
security.security_groups.rules in views.py: a service-level rules
lookup, written exactly as the source accesses it (note it is not
scoped to any particular security group). -/
structure RulesAccessor where
  get : String → Option SecurityGroupRule

structure SecurityGroupService where
  list : List SecurityGroup
  get : String → Option SecurityGroup
  rules : RulesAccessor

structure ComputeService where
  regions : RegionService

structure SecurityService where
  key_pairs : KeyPairService
  security_groups : SecurityGroupService

structure ObjectStoreService where
  list : List Bucket
  get : String → Option Bucket

structure Provider where
  compute : ComputeService
  security : SecurityService
  object_store : ObjectStoreService

/-- The path keyword arguments a request hands the view (nested routing
supplies the parent keys). -/
structure Kwargs where
  pk : String
  region_pk : String
  security_group_pk : String
  bucket_pk : String
deriving DecidableEq

/-- CustomNonModelObjectMixin.get_object: call retrieve_object, raise
Http404 when it returned None, then run the object permission check
(which may raise PermissionDenied) and return the object.  The
retrieve_object result and the permission predicate are the abstract
methods of the mixin, passed as arguments. -/
def CustomNonModelObjectMixin.get_object {α : Type}
    (retrieve_object : Except DrfError (Option α))
    (check_object_permissions : α → Bool) : Except DrfError α :=
  match retrieve_object with
  | Except.error e => Except.error e
  | Except.ok none => Except.error DrfError.http404
  | Except.ok (some obj) =>
      if check_object_permissions obj then Except.ok obj
      else Except.error DrfError.permissionDenied

/-- RegionViewSet.list_objects: provider.compute.regions.list(). -/
def RegionViewSet.list_objects (p : Provider) : List Region :=
  p.compute.regions.list

/-- RegionViewSet.get_object: return
provider.compute.regions.get(kwargs pk) unchanged (the override
performs no None check and no permission check). -/
def RegionViewSet.get_object (p : Provider) (kw : Kwargs) :
    Except DrfError (Option Region) :=
  Except.ok (p.compute.regions.get kw.pk)

/-- ZoneViewSet.list_objects: get the region by region_pk; when it is
truthy return its zones, otherwise raise Http404. -/
def ZoneViewSet.list_objects (p : Provider) (kw : Kwargs) :
    Except DrfError (List Zone) :=
  match p.compute.regions.get kw.region_pk with
  | some region => Except.ok region.zones
  | none => Except.error DrfError.http404

/-- ZoneViewSet.get_object: the first element of list_objects whose id
equals the pk keyword argument, or None when there is none. -/
def ZoneViewSet.get_object (p : Provider) (kw : Kwargs) :
    Except DrfError (Option Zone) :=
  match ZoneViewSet.list_objects p kw with
  | Except.error e => Except.error e
  | Except.ok zs => Except.ok (zs.find? (fun s => s.id == kw.pk))

/-- KeyPairViewSet.list_objects: provider.security.key_pairs.list(). -/
def KeyPairViewSet.list_objects (p : Provider) : List KeyPair :=
  p.security.key_pairs.list

/-- KeyPairViewSet.get_object: return
provider.security.key_pairs.get(kwargs pk) unchanged (the override
performs no None check and consults no permission predicate). -/
def KeyPairViewSet.get_object (p : Provider) (kw : Kwargs) :
    Except DrfError (Option KeyPair) :=
  Except.ok (p.security.key_pairs.get kw.pk)

/-- SecurityGroupRuleViewSet.list_objects: get the security group by
security_group_pk; when truthy return its rules, otherwise raise
Http404. -/
def SecurityGroupRuleViewSet.list_objects (p : Provider) (kw : Kwargs) :
    Except DrfError (List SecurityGroupRule) :=
  match p.security.security_groups.get kw.security_group_pk with
  | some sg => Except.ok sg.rules
  | none => Except.error DrfError.http404

/-- SecurityGroupRuleViewSet.get_object: raise Http404 when the
security group is missing, otherwise return
provider.security.security_groups.rules.get(pk), the service-level
lookup written in the source (not a filter of list_objects and not
scoped to the fetched group). -/
def SecurityGroupRuleViewSet.get_object (p : Provider) (kw : Kwargs) :
    Except DrfError (Option SecurityGroupRule) :=
  match p.security.security_groups.get kw.security_group_pk with
  | none => Except.error DrfError.http404
  | some _ => Except.ok (p.security.security_groups.rules.get kw.pk)

/-- BucketObjectViewSet.list_objects: get the bucket by bucket_pk; when
truthy return bucket.list(), otherwise raise Http404. -/
def BucketObjectViewSet.list_objects (p : Provider) (kw : Kwargs) :
    Except DrfError (List BucketObject) :=
  match p.object_store.get kw.bucket_pk with
  | some bucket => Except.ok bucket.list
  | none => Except.error DrfError.http404

/-- BucketObjectViewSet.get_object: return
provider.object_store.get(kwargs pk) unchanged, which looks up a
bucket by the pk of the requested bucket object and ignores bucket_pk
entirely. -/
def BucketObjectViewSet.get_object (p : Provider) (kw : Kwargs) :
    Except DrfError (Option Bucket) :=
  Except.ok (p.object_store.get kw.pk)

/-- The synthetic empty record of the singleton viewset: the empty data
row the serializer receives so that it can emit its fields. -/
inductive EmptyRecord where
  | mk
deriving DecidableEq

/-- CustomReadOnlySingleViewSet.get_object: always the empty record. -/
def CustomReadOnlySingleViewSet.get_object : EmptyRecord :=
  EmptyRecord.mk

set_option linter.unusedVariables false in
/-- CustomReadOnlySingleViewSet.list: serialize get_object and return
its data.  The serializer and the (unused) list_objects implementation
are the collaborators of the class, passed as arguments. -/
def CustomReadOnlySingleViewSet.list {σ α : Type}
    (get_serializer : EmptyRecord → σ) (list_objects : List α) : σ :=
  get_serializer CustomReadOnlySingleViewSet.get_object

/-! ## Part 4: concrete provider fixtures for the view-layer claims -/

def zone_z1 : Zone := ⟨"z1"⟩

def region_reg1 : Region := ⟨"reg1", [zone_z1]⟩

def keypair_kp1 : KeyPair := ⟨"kp1"⟩

def rule_r1 : SecurityGroupRule := ⟨"r1"⟩

def sg1 : SecurityGroup := ⟨"sg1", [rule_r1]⟩

def bucket_b1 : Bucket := ⟨"b1", []⟩

/-- A provider holding one region reg1 (with one zone z1), one key pair
kp1, one security group sg1 (with one rule r1, while the service-level
rules accessor knows nothing), and one bucket b1. -/
def sampleProvider : Provider :=
  { compute :=
      { regions :=
          { list := [region_reg1],
            get := fun pk => if pk == "reg1" then some region_reg1
                             else none } },
    security :=
      { key_pairs :=
          { list := [keypair_kp1],
            get := fun pk => if pk == "kp1" then some keypair_kp1
                             else none },
        security_groups :=
          { list := [sg1],
            get := fun pk => if pk == "sg1" then some sg1 else none,
            rules := { get := fun _ => none } } },
    object_store :=
      { list := [bucket_b1],
        get := fun pk => if pk == "b1" then some bucket_b1
                         else none } }

/-- A provider knowing no objects at all: every get yields None. -/
def emptyProvider : Provider :=
  { compute := { regions := { list := [], get := fun _ => none } },
    security :=
      { key_pairs := { list := [], get := fun _ => none },
        security_groups :=
          { list := [], get := fun _ => none,
            rules := { get := fun _ => none } } },
    object_store := { list := [], get := fun _ => none } }

/-- C3: the mixin get_object does raise Http404 on an absent
retrieve_object result, but RegionViewSet overrides get_object and
returns the raw provider lookup, so a missing region yields a None
object instead of the not-found error: evaluated at a provider with no
regions and pk r1, retrieval returns None with no Http404. -/
theorem region_retrieve_returns_none_bug :
    CustomNonModelObjectMixin.get_object (α := Region)
        (Except.ok none) (fun _ => true)
      = Except.error DrfError.http404 ∧
    RegionViewSet.get_object emptyProvider ⟨"r1", "", "", ""⟩
      = Except.ok none :=
  ⟨rfl, rfl⟩

/-- C4: at a provider that has no bucket named missing but does have
bucket b1, with bucket_pk missing and pk b1, list_objects of the nested
bucket-object handler raises Http404 as the claim states, but
get_object ignores the parent identifier and returns the bucket found
under the object pk, instead of the not-found error; the Zone handler
behaves as claimed on a missing parent. -/
theorem bucket_object_parent_scope_bug :
    BucketObjectViewSet.list_objects sampleProvider
        ⟨"b1", "", "", "missing"⟩
      = Except.error DrfError.http404 ∧
    BucketObjectViewSet.get_object sampleProvider
        ⟨"b1", "", "", "missing"⟩
      = Except.ok (some bucket_b1) ∧
    ZoneViewSet.list_objects sampleProvider ⟨"z1", "missing", "", ""⟩
      = Except.error DrfError.http404 ∧
    ZoneViewSet.get_object sampleProvider ⟨"z1", "missing", "", ""⟩
      = Except.error DrfError.http404 :=
  ⟨rfl, rfl, rfl, rfl⟩

/-- C5 counterexample: at a provider whose security group sg1 lists the
rule r1 while the service-level rules accessor the source consults
knows nothing, the rule appears in list_objects under the requested pk
yet get_object returns None: SecurityGroupRule retrieval is not the
filter of list_objects the claim describes. -/
theorem sg_rule_retrieve_list_mismatch :
    SecurityGroupRuleViewSet.list_objects sampleProvider
        ⟨"r1", "", "sg1", ""⟩
      = Except.ok [rule_r1] ∧
    rule_r1.id = "r1" ∧
    SecurityGroupRuleViewSet.get_object sampleProvider
        ⟨"r1", "", "sg1", ""⟩
      = Except.ok none :=
  ⟨rfl, rfl, rfl⟩

/-- C5 amended: Zone retrieval is the filter of list_objects by
identifier: whenever list_objects succeeds, get_object returns exactly
the first listed element whose id equals the pk keyword argument (an
element of the list bearing the requested id); SecurityGroupRule
retrieval instead returns the service-level rules lookup by pk once
the parent group resolves. -/
theorem zone_retrieve_filters_list (p : Provider) (kw : Kwargs)
    (zs : List Zone)
    (hlist : ZoneViewSet.list_objects p kw = Except.ok zs) :
    ZoneViewSet.get_object p kw
      = Except.ok (zs.find? (fun s => s.id == kw.pk)) ∧
    (∀ z, zs.find? (fun s => s.id == kw.pk) = some z →
      z ∈ zs ∧ z.id = kw.pk) ∧
    (∀ sg : SecurityGroup,
      p.security.security_groups.get kw.security_group_pk = some sg →
      SecurityGroupRuleViewSet.get_object p kw
        = Except.ok (p.security.security_groups.rules.get kw.pk)) := by
  refine ⟨?_, ?_, ?_⟩
  · unfold ZoneViewSet.get_object
    rw [hlist]
  · intro z hz
    refine ⟨List.mem_of_find?_eq_some hz, ?_⟩
    have := List.find?_some hz
    simpa using this
  · intro sg hsg
    unfold SecurityGroupRuleViewSet.get_object
    rw [hsg]

/-- Witness for the C5 amended theorem at the sample provider. -/
theorem zone_retrieve_filters_list_witness :
    ZoneViewSet.get_object sampleProvider ⟨"z1", "reg1", "", ""⟩
      = Except.ok ([zone_z1].find?
          (fun s => s.id == (⟨"z1", "reg1", "", ""⟩ : Kwargs).pk)) :=
  (zone_retrieve_filters_list sampleProvider ⟨"z1", "reg1", "", ""⟩
    [zone_z1] rfl).1

/-- C6: the mixin get_object checks not-found before the permission
predicate (an absent object yields Http404 even under a denying
predicate, a present object failing the predicate yields
PermissionDenied, a present passing object is returned), but
KeyPairViewSet overrides get_object with the raw provider lookup whose
result is returned without consulting any permission predicate at all:
at the sample provider the existing key pair is returned directly. -/
theorem keypair_permission_check_bypassed_bug :
    CustomNonModelObjectMixin.get_object (α := KeyPair)
        (Except.ok none) (fun _ => false)
      = Except.error DrfError.http404 ∧
    CustomNonModelObjectMixin.get_object
        (Except.ok (some keypair_kp1)) (fun _ => false)
      = Except.error DrfError.permissionDenied ∧
    CustomNonModelObjectMixin.get_object
        (Except.ok (some keypair_kp1)) (fun _ => true)
      = Except.ok keypair_kp1 ∧
    KeyPairViewSet.get_object sampleProvider ⟨"kp1", "", "", ""⟩
      = Except.ok (some keypair_kp1) :=
  ⟨rfl, rfl, rfl, rfl⟩

/-- C7: the singleton viewset exposes only the list operation (the
router generates exactly one route for it, mapping GET to list);
get_object always returns the synthetic empty record, list returns the
serializer output over that record, and the result never depends on
any list_objects implementation.  SecurityViewSet, BlockStoreViewSet
and ObjectStoreViewSet are the same view class as ComputeViewSet. -/
theorem singleton_viewset_list_only (trailing_slash : String)
    (σ α : Type) (get_serializer : EmptyRecord → σ)
    (lo1 lo2 : List α) :
    CustomReadOnlySingleViewSet.get_object = EmptyRecord.mk ∧
    CustomReadOnlySingleViewSet.list get_serializer lo1
      = get_serializer EmptyRecord.mk ∧
    CustomReadOnlySingleViewSet.list get_serializer lo1
      = CustomReadOnlySingleViewSet.list get_serializer lo2 ∧
    SecurityViewSet = ComputeViewSet ∧
    BlockStoreViewSet = ComputeViewSet ∧
    ObjectStoreViewSet = ComputeViewSet ∧
    HybridRoutingMixin.get_urls trailing_slash
        [⟨"compute", ComputeViewSet, "compute"⟩]
      = [⟨"^" ++ "compute" ++ trailing_slash ++ "$",
          BoundView.viewsetActions [(HttpMethod.get, "list")],
          "compute" ++ "-list"⟩] := by
  refine ⟨rfl, rfl, rfl, rfl, rfl, rfl, ?_⟩
  rw [hybrid_get_urls_structure]
  rfl

/-- Witness for C7 at a concrete serializer and trailing slash. -/
theorem singleton_viewset_list_only_witness :
    CustomReadOnlySingleViewSet.list
        (fun _ : EmptyRecord => "data") ([] : List Nat)
      = (fun _ : EmptyRecord => "data") EmptyRecord.mk :=
  (singleton_viewset_list_only "/" String Nat
    (fun _ : EmptyRecord => "data") [] [0]).2.1
